import Mathlib

/-!
Verification of the MAX6675 thermocouple driver and BLE peripheral of the
pico coffee-roaster probe firmware (src/main.py).

The driver and peripheral are shallowly embedded: each Python method becomes a
Lean function over an explicit state record.  Monotonic time (`time.ticks_ms`)
is passed in as a natural-number argument; the data-in pin (`self._so.value()`)
is passed in as a function from sample index to the sampled bit; effects on the
three digital lines (`sck`, `cs`) and the microsecond sleeps are recorded in an
explicit trace of `PinEvent`s.  Python floats are modelled as rationals: every
value the code computes (`value * 0.25` with `value < 4096`, `temperature *
100` at the inputs considered) is exact in double - and single - precision
floating point, so the rational model agrees with the float semantics there.
-/

/-- One observable action on the sensor pins, in program order:
`sck.high()`, `sck.low()`, `cs.high()`, `cs.low()`, `time.sleep_us(n)`. -/
inductive PinEvent where
  | sckHigh : PinEvent
  | sckLow : PinEvent
  | csHigh : PinEvent
  | csLow : PinEvent
  | sleepUs : Nat → PinEvent
deriving DecidableEq, BEq

/-- State of the `MAX6675` driver object: the fields `_last_measurement_start`
(ms tick of the last conversion start), `_last_read_temp` (cached Celsius) and
`_error` (cached fault bit, an int in the source). -/
structure MAX6675 where
  last_measurement_start : Nat
  last_read_temp : ℚ
  error : Nat
deriving DecidableEq

/-- `MAX6675.MEASUREMENT_PERIOD_MS = 220`. -/
def MAX6675.MEASUREMENT_PERIOD_MS : Nat := 220

/-- `MAX6675.__init__`: pin setup aside (sck low, cs high, so low), the state
fields are initialised to `_last_measurement_start = 0`, `_last_read_temp = 0`,
`_error = 0`. -/
def MAX6675.init : MAX6675 :=
  { last_measurement_start := 0, last_read_temp := 0, error := 0 }

/-- `MAX6675._cycle_sck`: raise clock, hold 1 us, lower clock, hold 1 us. -/
def MAX6675.cycle_sck_events : List PinEvent :=
  [.sckHigh, .sleepUs 1, .sckLow, .sleepUs 1]

/-- `MAX6675.refresh` at tick `now`: pulses `cs` low for 10 us, raises it, and
records `now` as conversion start. -/
def MAX6675.refresh (now : Nat) (s : MAX6675) : MAX6675 × List PinEvent :=
  ({ s with last_measurement_start := now }, [.csLow, .sleepUs 10, .csHigh])

/-- `MAX6675.ready` at tick `now`:
`time.ticks_ms() - self._last_measurement_start > MEASUREMENT_PERIOD_MS`.
The subtraction is Python integer subtraction, modelled in `ℤ`. -/
def MAX6675.ready (now : Nat) (s : MAX6675) : Bool :=
  decide ((MAX6675.MEASUREMENT_PERIOD_MS : ℤ) < (now : ℤ) - (s.last_measurement_start : ℤ))

/-- `MAX6675.error`: returns the cached `_error` bit. -/
def MAX6675.errorBit (s : MAX6675) : Nat := s.error

/-- The 12-bit accumulation loop of `MAX6675.read`:
`for i in range(12): value |= so.value() << (11 - i)` where `so i` is the bit
sampled on the i-th data clock cycle. -/
def readBits (so : Nat → Bool) : Nat :=
  (List.range 12).foldl (fun value i => value ||| ((if so i then 1 else 0) <<< (11 - i))) 0

/-- The pin trace of a ready `read`: cs low, 10 us settle, 12 data clock
cycles, 1 fault-bit clock cycle, 2 discarded padding clock cycles, cs high. -/
def readEvents : List PinEvent :=
  [.csLow, .sleepUs 10]
    ++ (List.replicate 12 MAX6675.cycle_sck_events).flatten
    ++ MAX6675.cycle_sck_events
    ++ (List.replicate 2 MAX6675.cycle_sck_events).flatten
    ++ [.csHigh]

/-- `MAX6675.read` at tick `now`, with `so k` the bit the data line delivers at
the k-th sample (k = 0..11 the data bits, k = 12 the fault bit).  If
`ready()` the frame is clocked in, conversion start is re-armed to `now`, the
fault bit and `_last_read_temp = value * 0.25` are cached and returned;
otherwise the cached temperature is returned and no line is touched. -/
def MAX6675.read (now : Nat) (so : Nat → Bool) (s : MAX6675) :
    MAX6675 × ℚ × List PinEvent :=
  if MAX6675.ready now s then
    ({ last_measurement_start := now,
       last_read_temp := (readBits so : ℚ) * (1 / 4),
       error := if so 12 then 1 else 0 },
     (readBits so : ℚ) * (1 / 4),
     readEvents)
  else
    (s, s.last_read_temp, [])

/-- Iterated `read`: the calls in `inputs` (tick, data-line bits) are made in
order; the list of returned Celsius values is collected. -/
def readMany (inputs : List (Nat × (Nat → Bool))) (s : MAX6675) :
    MAX6675 × List ℚ :=
  match inputs with
  | [] => (s, [])
  | (t, so) :: rest =>
      let r := MAX6675.read t so s
      let rr := readMany rest r.1
      (rr.1, r.2.1 :: rr.2)

/-- A single shifted bit, as produced by one iteration of the accumulation
loop, has bit `n` set iff the sampled bit was set and `k = n`. -/
theorem ifBit_shift_testBit (b : Bool) (n k : Nat) :
    ((if b then 1 else 0) <<< n).testBit k = (b && decide (k = n)) := by
  cases b with
  | false => simp
  | true =>
      have h1 : (1 : Nat) <<< n = 2 ^ n := by rw [Nat.shiftLeft_eq, Nat.one_mul]
      rw [if_pos rfl, h1, Nat.testBit_two_pow]
      simp [eq_comm]

/-- Bit `k` of the assembled 12-bit value is sample `11 - k` (MSB first),
and bits at positions 12 and above are clear. -/
theorem readBits_testBit (so : Nat → Bool) (k : Nat) :
    (readBits so).testBit k = (decide (k ≤ 11) && so (11 - k)) := by
  have hr : readBits so =
      ((((((((((((0 ||| ((if so 0 then 1 else 0) <<< 11)) ||| ((if so 1 then 1 else 0) <<< 10))
        ||| ((if so 2 then 1 else 0) <<< 9)) ||| ((if so 3 then 1 else 0) <<< 8))
        ||| ((if so 4 then 1 else 0) <<< 7)) ||| ((if so 5 then 1 else 0) <<< 6))
        ||| ((if so 6 then 1 else 0) <<< 5)) ||| ((if so 7 then 1 else 0) <<< 4))
        ||| ((if so 8 then 1 else 0) <<< 3)) ||| ((if so 9 then 1 else 0) <<< 2))
        ||| ((if so 10 then 1 else 0) <<< 1)) ||| ((if so 11 then 1 else 0) <<< 0)) := rfl
  rw [hr]
  simp only [Nat.testBit_or, ifBit_shift_testBit, Nat.zero_testBit, Bool.false_or]
  rcases Nat.lt_or_ge k 12 with hk | hk
  · interval_cases k <;> simp
  · have h11 : ¬ (k ≤ 11) := by omega
    have hno : ∀ m, m ≤ 11 → decide (k = m) = false := by
      intro m hm
      simp only [decide_eq_false_iff_not]
      omega
    simp [h11, hno]

/-- Clocking in the MSB-first bit pattern of a 12-bit code `v` reassembles
exactly `v`. -/
theorem readBits_of_code (v : Nat) (hv : v < 4096) :
    readBits (fun i => v.testBit (11 - i)) = v := by
  apply Nat.eq_of_testBit_eq
  intro k
  rw [readBits_testBit]
  rcases Nat.lt_or_ge k 12 with hk | hk
  · have h11 : 11 - (11 - k) = k := by omega
    simp [h11, show k ≤ 11 by omega]
  · have h1 : ¬ (k ≤ 11) := by omega
    have h2 : v < 2 ^ k := by
      have : (2 : Nat) ^ 12 ≤ 2 ^ k := Nat.pow_le_pow_right (by norm_num) hk
      omega
    simp [h1, Nat.testBit_lt_two_pow h2]

theorem readBits_lt_aux (so : Nat → Bool) (l : List Nat) (acc : Nat) (h : acc < 4096) :
    (l.foldl (fun value i => value ||| ((if so i then 1 else 0) <<< (11 - i))) acc) < 4096 := by
  induction l generalizing acc with
  | nil => exact h
  | cons i t ih =>
      apply ih
      have hterm : ((if so i then 1 else 0) <<< (11 - i)) < 4096 := by
        rw [Nat.shiftLeft_eq]
        have h1 : (if so i then 1 else 0) ≤ 1 := by split <;> omega
        have h2 : (2 : Nat) ^ (11 - i) ≤ 2 ^ 11 := Nat.pow_le_pow_right (by norm_num) (by omega)
        calc (if so i then 1 else 0) * 2 ^ (11 - i) ≤ 1 * 2 ^ 11 := Nat.mul_le_mul h1 h2
          _ < 4096 := by norm_num
      have hor := Nat.or_lt_two_pow (n := 12) h hterm
      simpa using hor

/-- The assembled raw code is a 12-bit value. -/
theorem readBits_lt (so : Nat → Bool) : readBits so < 4096 :=
  readBits_lt_aux so (List.range 12) 0 (by norm_num)

/-- C1 counterexample: the claim says a ready `read()` clocks the data line 16
times; the code clocks it 15 times (12 data cycles + 1 fault cycle + 2 padding
cycles).  Concretely, a `read` on the fresh driver at tick 300 (which is ready)
raises the clock line exactly 15 times. -/
theorem C1_counterexample :
    MAX6675.ready 300 MAX6675.init = true ∧
    (MAX6675.read 300 (fun _ => false) MAX6675.init).2.2.count PinEvent.sckHigh = 15 ∧
    (15 : Nat) ≠ 16 := by
  refine ⟨by decide, ?_, by decide⟩
  decide

/-- C1 (amended): a `read()` made when `ready()` is true pulls select low,
clocks the data line 15 times (12 data bits MSB-first into bits [11..0], then
1 fault bit replacing the cached fault flag, then 2 discarded padding bits),
raises select high, re-arms conversion start to the current tick, and returns
celsius = rawCode * 0.25; for every 12-bit code v in [0, 4095] the derived
celsius equals v * 0.25. -/
theorem C1_read_frame (now : Nat) (so : Nat → Bool) (s : MAX6675)
    (h : MAX6675.ready now s = true) :
    MAX6675.read now so s =
      ({ last_measurement_start := now,
         last_read_temp := (readBits so : ℚ) * (1 / 4),
         error := if so 12 then 1 else 0 },
       (readBits so : ℚ) * (1 / 4), readEvents) ∧
    readEvents.count PinEvent.sckHigh = 15 ∧
    readEvents.head? = some PinEvent.csLow ∧
    readEvents.getLast? = some PinEvent.csHigh ∧
    readBits so < 4096 ∧
    (∀ v : Nat, v < 4096 →
      (readBits (fun i => v.testBit (11 - i)) : ℚ) * (1 / 4) = (v : ℚ) * (1 / 4)) := by
  refine ⟨?_, by decide, by decide, by decide, readBits_lt so, ?_⟩
  · simp [MAX6675.read, h]
  · intro v hv
    rw [readBits_of_code v hv]

theorem C1_read_frame_witness :
    MAX6675.ready 300 MAX6675.init = true ∧
    (MAX6675.read 300 (fun _ => false) MAX6675.init =
      ({ last_measurement_start := 300,
         last_read_temp := (readBits (fun _ => false) : ℚ) * (1 / 4),
         error := if (fun _ : Nat => false) 12 then 1 else 0 },
       (readBits (fun _ => false) : ℚ) * (1 / 4), readEvents)) :=
  ⟨by decide, (C1_read_frame 300 (fun _ => false) MAX6675.init (by decide)).1⟩

/-- C2 counterexample: the claim says `ready()` is true at every elapsed time
of 220 ms or more; at elapsed time exactly 220 ms the code returns false
(`>` is strict). -/
theorem C2_counterexample :
    (220 : Nat) ≥ 220 ∧
    MAX6675.ready 220 ((MAX6675.refresh 0 MAX6675.init).1) = false := by
  exact ⟨by decide, by decide⟩

/-- C2 (amended): after `refresh()` records conversion start `t0`, `ready()`
is false at every elapsed time of at most 220 ms (including exactly 220 ms)
and true at every elapsed time strictly greater than 220 ms; it is a pure
query of the current tick and the recorded start. -/
theorem C2_ready_threshold (s : MAX6675) (t0 now : Nat) :
    ((now : ℤ) - (t0 : ℤ) ≤ 220 →
      MAX6675.ready now ((MAX6675.refresh t0 s).1) = false) ∧
    (220 < (now : ℤ) - (t0 : ℤ) →
      MAX6675.ready now ((MAX6675.refresh t0 s).1) = true) := by
  constructor <;> intro h <;>
    simp only [MAX6675.ready, MAX6675.refresh, MAX6675.MEASUREMENT_PERIOD_MS,
      decide_eq_true_eq, decide_eq_false_iff_not] <;>
    omega

theorem C2_ready_threshold_witness :
    ((100 : ℤ) - (0 : ℤ) ≤ 220 ∧
      MAX6675.ready 100 ((MAX6675.refresh 0 MAX6675.init).1) = false) ∧
    (220 < (300 : ℤ) - (0 : ℤ) ∧
      MAX6675.ready 300 ((MAX6675.refresh 0 MAX6675.init).1) = true) :=
  ⟨⟨by decide, (C2_ready_threshold MAX6675.init 0 100).1 (by decide)⟩,
   ⟨by decide, (C2_ready_threshold MAX6675.init 0 300).2 (by decide)⟩⟩

/-- C4: a `read()` made when `ready()` is false returns the cached celsius,
changes no driver state and touches no line (empty pin trace); iterating any
number of such calls keeps returning the same cached value with the state
unchanged. -/
theorem C4_stale_read (s : MAX6675) :
    (∀ now so, MAX6675.ready now s = false →
      MAX6675.read now so s = (s, s.last_read_temp, [])) ∧
    (∀ inputs : List (Nat × (Nat → Bool)),
      (∀ p ∈ inputs, MAX6675.ready p.1 s = false) →
      readMany inputs s = (s, inputs.map (fun _ => s.last_read_temp))) := by
  have h1 : ∀ now so, MAX6675.ready now s = false →
      MAX6675.read now so s = (s, s.last_read_temp, []) := by
    intro now so h
    simp [MAX6675.read, h]
  refine ⟨h1, ?_⟩
  intro inputs
  induction inputs with
  | nil => intro _; rfl
  | cons p t ih =>
      intro hall
      obtain ⟨tp, sop⟩ := p
      have hp := h1 tp sop (hall (tp, sop) (List.mem_cons_self _ _))
      have ht := ih (fun q hq => hall q (List.mem_cons_of_mem _ hq))
      simp [readMany, hp, ht]

theorem C4_stale_read_witness :
    (∀ p ∈ [((10 : Nat), fun _ : Nat => false), ((20 : Nat), fun _ : Nat => false)],
      MAX6675.ready p.1 MAX6675.init = false) ∧
    readMany [((10 : Nat), fun _ : Nat => false), ((20 : Nat), fun _ : Nat => false)]
        MAX6675.init =
      (MAX6675.init,
        [((10 : Nat), fun _ : Nat => false), ((20 : Nat), fun _ : Nat => false)].map
          (fun _ => MAX6675.init.last_read_temp)) :=
  ⟨by decide,
   (C4_stale_read MAX6675.init).2
     [((10 : Nat), fun _ : Nat => false), ((20 : Nat), fun _ : Nat => false)] (by decide)⟩

/-- C10: on the freshly constructed driver the conversion-start tick is 0, the
cached celsius is 0 and the fault flag is 0; `ready()` is true exactly when
the tick clock exceeds 220; a `read()` made while not ready returns 0 and
`error()` returns 0. -/
theorem C10_initial_state :
    MAX6675.init.last_measurement_start = 0 ∧
    MAX6675.init.last_read_temp = 0 ∧
    MAX6675.errorBit MAX6675.init = 0 ∧
    (∀ now : Nat, MAX6675.ready now MAX6675.init = true ↔ 220 < now) ∧
    (∀ now so, MAX6675.ready now MAX6675.init = false →
      MAX6675.read now so MAX6675.init = (MAX6675.init, 0, [])) := by
  refine ⟨rfl, rfl, rfl, ?_, ?_⟩
  · intro now
    simp only [MAX6675.ready, MAX6675.init, MAX6675.MEASUREMENT_PERIOD_MS,
      decide_eq_true_eq]
    omega
  · intro now so h
    simp only [MAX6675.read]
    rw [h]
    rfl

theorem C10_initial_state_witness :
    MAX6675.ready 100 MAX6675.init = false ∧
    MAX6675.read 100 (fun _ => false) MAX6675.init = (MAX6675.init, 0, []) :=
  ⟨by decide, C10_initial_state.2.2.2.2 100 (fun _ => false) (by decide)⟩

/-!
## BLE peripheral (class `BLEPeripheral` of src/main.py)

Byte strings are modelled as `List Nat` with entries below 256.  The radio
stack is external: connect / disconnect / write callbacks are modelled as an
explicit event type fed to the `_irq` dispatcher, with the value a write
stored into the stack's attribute table carried on the event (the code reads
it back with `gatts_read`).  `gatts_notify` calls are returned as a list of
(connection handle, payload) pairs.
-/

/-- Value of one hexadecimal digit character (as used by `bytes.fromhex`). -/
def hexVal (c : Char) : Nat :=
  if '0' ≤ c ∧ c ≤ '9' then c.toNat - 48
  else if 'a' ≤ c ∧ c ≤ 'f' then c.toNat - 87
  else if 'A' ≤ c ∧ c ≤ 'F' then c.toNat - 55
  else 0

/-- `bytes.fromhex`: consecutive pairs of hex digits become bytes. -/
def fromHexChars : List Char → List Nat
  | c1 :: c2 :: rest => (16 * hexVal c1 + hexVal c2) :: fromHexChars rest
  | _ => []

/-- `bytes.fromhex(s)` on a string of hex digits. -/
def bytes_fromhex (s : String) : List Nat :=
  fromHexChars s.data

/-- `s.replace("-", "")`: drop every hyphen. -/
def dropHyphens (s : String) : String :=
  ⟨s.data.filter (fun c => c != '-')⟩

/-- Python `n.to_bytes(len, "little")` (for `n < 256 ^ len`). -/
def toBytesLE (len n : Nat) : List Nat :=
  (List.range len).map (fun i => n / 256 ^ i % 256)

/-- Python `int.from_bytes(bs, "little")` on a byte string. -/
def fromBytesLE (bs : List Nat) : Nat :=
  bs.foldr (fun b acc => b + 256 * acc) 0

/-- UTF-8 encoding of one character (Python `str.encode("utf-8")`). -/
def utf8EncodeCharNat (c : Char) : List Nat :=
  let n := c.toNat
  if n < 0x80 then [n]
  else if n < 0x800 then
    [0xC0 ||| (n >>> 6), 0x80 ||| (n &&& 0x3F)]
  else if n < 0x10000 then
    [0xE0 ||| (n >>> 12), 0x80 ||| ((n >>> 6) &&& 0x3F), 0x80 ||| (n &&& 0x3F)]
  else
    [0xF0 ||| (n >>> 18), 0x80 ||| ((n >>> 12) &&& 0x3F),
     0x80 ||| ((n >>> 6) &&& 0x3F), 0x80 ||| (n &&& 0x3F)]

/-- UTF-8 bytes of a string. -/
def strUtf8 (s : String) : List Nat :=
  s.data.flatMap utf8EncodeCharNat

/-- The primary 128-bit service UUID string of the firmware. -/
def SERVICE_UUID_128 : String := "4ac90000-0b71-11e8-b8f5-b827ebe1d493"

/-- `BLEPeripheral._advertise_payload`: flags structure, appearance structure,
complete 128-bit service UUID structure (UUID bytes reversed), manufacturer
data structure `[len + 1, 0xFF, 0x90, 0x05]` followed by the 2-byte
little-endian notify interval. -/
def advertise_payload (notify_frequency : Nat) (service_uuid_128 : String) : List Nat :=
  let uuid_bytes := bytes_fromhex (dropHyphens service_uuid_128)
  let mf_data := [0x90, 0x05] ++ toBytesLE 2 notify_frequency
  [2, 0x01, 0x06] ++ [3, 0x19, 0x00, 0x00]
    ++ ([17, 0x07] ++ uuid_bytes.reverse)
    ++ ([mf_data.length + 1, 0xFF] ++ mf_data)

/-- `BLEPeripheral._scan_response_payload`: a complete-local-name structure of
length byte `len(name) + 1` (Python character count), type 0x09, and the
UTF-8 bytes of the name. -/
def scan_response_payload (name : String) : List Nat :=
  [name.length + 1, 0x09] ++ strUtf8 name

/-- Mutable state of the `BLEPeripheral` object.  The connection set is kept
as a duplicate-free list (Python `set`); `payload` and `scan_resp` are the
advertising byte blocks passed to `gap_advertise`. -/
structure BLEPeripheral where
  connections : List Nat
  notification_enabled : Bool
  notify_frequency : Nat
  notify_freq_value : List Nat
  probe_type_value : List Nat
  payload : List Nat
  scan_resp : List Nat
deriving DecidableEq

/-- Python `set.add`: append the handle unless already present. -/
def pySetAdd (l : List Nat) (x : Nat) : List Nat :=
  if x ∈ l then l else l ++ [x]

/-- Python `set.discard`: remove the handle if present. -/
def pySetDiscard (l : List Nat) (x : Nat) : List Nat :=
  l.filter (fun y => y != x)

/-- `BLEPeripheral.__init__` with the default name: notifications forced on,
interval 2000 ms, probe type byte 0x01, payload and scan response built once
from the service UUID and the name. -/
def BLEPeripheral.init (name : String) : BLEPeripheral :=
  { connections := []
    notification_enabled := true
    notify_frequency := 2000
    notify_freq_value := toBytesLE 2 2000
    probe_type_value := [0x01]
    payload := advertise_payload 2000 SERVICE_UUID_128
    scan_resp := scan_response_payload name }

/-- The attribute handles returned by `gatts_register_services`:
temperature characteristic, notify-interval characteristic, probe-type
characteristic (the temperature CCCD is `char_handle + 1`). -/
structure Handles where
  char_handle : Nat
  notify_freq_handle : Nat
  probe_type_handle : Nat
deriving DecidableEq

/-- A radio-stack callback: central connected (event 1), central disconnected
(event 2), or a write to an attribute (event 3, carrying the bytes that
`gatts_read(attr_handle)` returns). -/
inductive BLEEvent where
  | connect : Nat → BLEEvent
  | disconnect : Nat → BLEEvent
  | write : Nat → Nat → List Nat → BLEEvent
deriving DecidableEq

/-- `BLEPeripheral._irq`: connection bookkeeping and write dispatch.
Connect adds the handle (and re-pushes the cached probe-type / interval
buffers to the stack, which does not change this state).  Disconnect removes
the handle and clears `_notification_enabled`.  A write to the temperature
CCCD sets the flag to whether the value equals `b"\x01\x00"`; a 2-byte write
to the notify-interval characteristic is accepted as unsigned little-endian
milliseconds, any other length is rejected with no state change; a write to
the probe-type characteristic is cached verbatim; other handles are ignored. -/
def BLEPeripheral.irq (h : Handles) (s : BLEPeripheral) (ev : BLEEvent) : BLEPeripheral :=
  match ev with
  | .connect conn_handle =>
      { s with connections := pySetAdd s.connections conn_handle }
  | .disconnect conn_handle =>
      { s with connections := pySetDiscard s.connections conn_handle
               notification_enabled := false }
  | .write _ attr_handle v =>
      if attr_handle = h.char_handle + 1 then
        { s with notification_enabled := v == [0x01, 0x00] }
      else if attr_handle = h.notify_freq_handle then
        if v.length = 2 then
          { s with notify_frequency := fromBytesLE v, notify_freq_value := v }
        else s
      else if attr_handle = h.probe_type_handle then
        { s with probe_type_value := v }
      else s

/-- Python `int(q)` on an exact rational: truncation toward zero. -/
def pyIntTrunc (q : ℚ) : ℤ :=
  if 0 ≤ q.num then (q.num.toNat / q.den : Nat) else -((((-q.num).toNat / q.den : Nat) : ℤ))

/-- `BLEPeripheral.send(temperature)`: no-op on an empty connection set or
with notifications disabled; otherwise `int(temperature * 100)` is wrapped to
32 bits two's complement (`& 0xFFFFFFFF`), encoded little-endian in 4 bytes,
and notified to every connection.  Returns the (handle, bytes) notify calls. -/
def BLEPeripheral.send (s : BLEPeripheral) (temperature : ℚ) : List (Nat × List Nat) :=
  if s.connections = [] then []
  else if s.notification_enabled = false then []
  else
    let temp_int : ℤ := pyIntTrunc (temperature * 100)
    let temp_int_32 : Nat := (temp_int % (2 ^ 32 : ℤ)).toNat
    let temp_bytes := toBytesLE 4 temp_int_32
    s.connections.map (fun conn_handle => (conn_handle, temp_bytes))

/-- One pass of the `__main__` acquisition loop, from `refresh()` to the
notification decision: refresh at tick `tRefresh`, read at tick `tRead` (the
loop has waited for `ready()`), and notify the temperature unless the error
bit of the completed frame is set. -/
def loop_cycle (tRefresh tRead : Nat) (so : Nat → Bool) (s : MAX6675)
    (b : BLEPeripheral) : MAX6675 × List (Nat × List Nat) :=
  let s1 := (MAX6675.refresh tRefresh s).1
  let r := MAX6675.read tRead so s1
  if MAX6675.errorBit r.1 ≠ 0 then (r.1, [])
  else (r.1, b.send r.2.1)

/-- Parse a byte string as a sequence of BLE advertising structures:
each structure is a length byte `L ≥ 1`, a type byte, and `L - 1` value
bytes.  Returns the (type, value) pairs, or `none` if the length bytes do
not tile the string exactly. -/
def adStructsFuel : Nat → List Nat → Option (List (Nat × List Nat))
  | _, [] => some []
  | 0, _ :: _ => none
  | fuel + 1, len :: rest =>
      match len, rest with
      | 0, _ => none
      | _ + 1, [] => none
      | l + 1, ty :: rest2 =>
          if l ≤ rest2.length then
            match adStructsFuel fuel (rest2.drop l) with
            | some xs => some ((ty, rest2.take l) :: xs)
            | none => none
          else none

/-- Advertising-structure parse with enough fuel. -/
def adStructs (bs : List Nat) : Option (List (Nat × List Nat)) :=
  adStructsFuel bs.length bs

/-- `int()` truncation on a rational that is an integer is that integer. -/
theorem pyIntTrunc_intCast (n : ℤ) : pyIntTrunc ((n : ℚ)) = n := by
  unfold pyIntTrunc
  rw [Rat.num_intCast, Rat.den_intCast]
  split <;> simp <;> omega

/-- `send` on a nonempty connection set with notifications enabled notifies
every connection with the truncated, 32-bit-wrapped hundredths encoding. -/
theorem send_eq (s : BLEPeripheral) (t : ℚ)
    (hc : s.connections ≠ []) (he : s.notification_enabled = true) :
    BLEPeripheral.send s t =
      s.connections.map (fun conn_handle =>
        (conn_handle, toBytesLE 4 ((pyIntTrunc (t * 100) % (2 ^ 32 : ℤ)).toNat))) := by
  unfold BLEPeripheral.send
  rw [if_neg hc, if_neg (by simp [he])]

/-- C3 counterexample: with one active connection and notifications enabled,
celsius 225.56 (= 5639/25) is sent as bytes `1C 58 00 00` (22556 = 0x581C),
not `DC 57 00 00` as the claim states; moreover the encoding truncates rather
than rounds: celsius 0.019 gives hundredths 1.9, the code sends the bytes of
1 while rounding 1.9 yields 2. -/
theorem C3_counterexample :
    BLEPeripheral.send
        (BLEPeripheral.irq ⟨16, 18, 20⟩ (BLEPeripheral.init "RBPThermocouple") (.connect 0))
        (5639 / 25) = [(0, [0x1C, 0x58, 0x00, 0x00])] ∧
    ([0x1C, 0x58, 0x00, 0x00] : List Nat) ≠ [0xDC, 0x57, 0x00, 0x00] ∧
    BLEPeripheral.send
        (BLEPeripheral.irq ⟨16, 18, 20⟩ (BLEPeripheral.init "RBPThermocouple") (.connect 0))
        (19 / 1000) = [(0, [0x01, 0x00, 0x00, 0x00])] ∧
    round ((19 / 1000 : ℚ) * 100) = 2 ∧
    toBytesLE 4 (((2 : ℤ) % (2 ^ 32 : ℤ)).toNat) = [0x02, 0x00, 0x00, 0x00] ∧
    ([0x01, 0x00, 0x00, 0x00] : List Nat) ≠ [0x02, 0x00, 0x00, 0x00] := by
  have e1 : (5639 / 25 : ℚ) * 100 = ((22556 : ℤ) : ℚ) := by norm_num
  have e2 : (19 / 1000 : ℚ) * 100 = mkRat 19 10 := by
    rw [Rat.mkRat_eq_divInt, Rat.divInt_eq_div]
    norm_num
  have e3 : pyIntTrunc (mkRat 19 10) = 1 := by decide
  have e4 : round ((19 / 1000 : ℚ) * 100) = 2 := by
    rw [e2, Rat.mkRat_eq_divInt, Rat.divInt_eq_div]
    norm_num [round_eq]
  refine ⟨?_, by decide, ?_, e4, by decide, by decide⟩
  · rw [send_eq _ _ (by decide) (by decide), e1, pyIntTrunc_intCast]
    decide
  · rw [send_eq _ _ (by decide) (by decide), e2, e3]
    decide

/-- C3 (amended): with at least one active connection and notifications
enabled, `send` encodes `int(celsius * 100)` - truncation toward zero, not
rounding - wrapped two's complement to 32 bits, as 4 little-endian bytes, and
notifies every connection; celsius 225.56 yields bytes `1C 58 00 00`, and a
negative celsius wraps (e.g. -1 degree gives `9C FF FF FF`). -/
theorem C3_send_trunc_encoding (s : BLEPeripheral) (celsius : ℚ)
    (hc : s.connections ≠ []) (he : s.notification_enabled = true) :
    BLEPeripheral.send s celsius =
      s.connections.map (fun conn_handle =>
        (conn_handle, toBytesLE 4 ((pyIntTrunc (celsius * 100) % (2 ^ 32 : ℤ)).toNat))) ∧
    (∀ conn_handle ∈ s.connections,
      (conn_handle, toBytesLE 4 ((pyIntTrunc (celsius * 100) % (2 ^ 32 : ℤ)).toNat)) ∈
        BLEPeripheral.send s celsius) ∧
    toBytesLE 4 ((pyIntTrunc ((5639 / 25 : ℚ) * 100) % (2 ^ 32 : ℤ)).toNat) =
      [0x1C, 0x58, 0x00, 0x00] ∧
    toBytesLE 4 ((pyIntTrunc ((-1 : ℚ) * 100) % (2 ^ 32 : ℤ)).toNat) =
      [0x9C, 0xFF, 0xFF, 0xFF] := by
  refine ⟨send_eq s celsius hc he, ?_, ?_, ?_⟩
  · intro conn_handle hmem
    rw [send_eq s celsius hc he]
    exact List.mem_map_of_mem _ hmem
  · rw [show (5639 / 25 : ℚ) * 100 = ((22556 : ℤ) : ℚ) by norm_num, pyIntTrunc_intCast]
    decide
  · rw [show (-1 : ℚ) * 100 = ((-100 : ℤ) : ℚ) by norm_num, pyIntTrunc_intCast]
    decide

theorem C3_send_trunc_encoding_witness :
    (BLEPeripheral.irq ⟨16, 18, 20⟩ (BLEPeripheral.init "RBPThermocouple")
        (.connect 0)).connections ≠ [] ∧
    BLEPeripheral.send
        (BLEPeripheral.irq ⟨16, 18, 20⟩ (BLEPeripheral.init "RBPThermocouple") (.connect 0))
        (5639 / 25) =
      (BLEPeripheral.irq ⟨16, 18, 20⟩ (BLEPeripheral.init "RBPThermocouple")
          (.connect 0)).connections.map (fun conn_handle =>
        (conn_handle,
          toBytesLE 4 ((pyIntTrunc ((5639 / 25 : ℚ) * 100) % (2 ^ 32 : ℤ)).toNat))) :=
  ⟨by decide,
   (C3_send_trunc_encoding
     (BLEPeripheral.irq ⟨16, 18, 20⟩ (BLEPeripheral.init "RBPThermocouple") (.connect 0))
     (5639 / 25) (by decide) (by decide)).1⟩

/-- C5: the startup advertising payload parses as exactly four advertising
structures - flags `02 01 06`, appearance `03 19 00 00`, the complete 128-bit
service UUID structure (length byte 17, type 0x07, the 16 UUID bytes reversed
relative to the canonical hyphenated string), and a manufacturer-data
structure of type 0xFF carrying vendor id `90 05` and the 2-byte little-endian
notify interval, its length byte consistent with its payload - and the scan
response is a single complete-local-name structure (length byte = name length
+ 1, type 0x09, UTF-8 name bytes). -/
theorem C5_advertising_payload :
    adStructs ((BLEPeripheral.init "RBPThermocouple").payload) =
      some [(0x01, [0x06]), (0x19, [0x00, 0x00]),
            (0x07, (bytes_fromhex (dropHyphens SERVICE_UUID_128)).reverse),
            (0xFF, [0x90, 0x05] ++ toBytesLE 2 2000)] ∧
    (bytes_fromhex (dropHyphens SERVICE_UUID_128)).length = 16 ∧
    (∀ name : String, scan_response_payload name = [name.length + 1, 0x09] ++ strUtf8 name) ∧
    adStructs ((BLEPeripheral.init "RBPThermocouple").scan_resp) =
      some [(0x09, strUtf8 "RBPThermocouple")] :=
  ⟨by decide, by decide, fun _ => rfl, by decide⟩

/-- C6 counterexample: the claim says an accepted interval write rebuilds the
advertising payload to encode the new interval; in the code an accepted write
of `10 27` (10000 ms) updates the cached interval but leaves the payload
byte-identical, still ending with the startup encoding `D0 07`, not `10 27`. -/
theorem C6_counterexample :
    (BLEPeripheral.irq ⟨16, 18, 20⟩ (BLEPeripheral.init "RBPThermocouple")
        (.write 0 18 [0x10, 0x27])).notify_frequency = 10000 ∧
    (BLEPeripheral.irq ⟨16, 18, 20⟩ (BLEPeripheral.init "RBPThermocouple")
        (.write 0 18 [0x10, 0x27])).payload =
      (BLEPeripheral.init "RBPThermocouple").payload ∧
    toBytesLE 2 10000 = [0x10, 0x27] ∧
    ((BLEPeripheral.init "RBPThermocouple").payload).drop
        ((BLEPeripheral.init "RBPThermocouple").payload.length - 2) = [0xD0, 0x07] ∧
    ([0xD0, 0x07] : List Nat) ≠ [0x10, 0x27] := by
  refine ⟨by decide, by decide, by decide, by decide, by decide⟩

/-- C6 (amended): the advertising payload encodes the notify interval cached
at startup (for the default 2000 ms it ends with `D0 07`); it is built once:
no radio event - including an accepted notify-interval write - ever changes
it, so after an interval write it still encodes the startup interval. -/
theorem C6_payload_startup_only :
    (BLEPeripheral.init "RBPThermocouple").payload =
      advertise_payload (BLEPeripheral.init "RBPThermocouple").notify_frequency
        SERVICE_UUID_128 ∧
    ((BLEPeripheral.init "RBPThermocouple").payload).drop
        ((BLEPeripheral.init "RBPThermocouple").payload.length - 2) = [0xD0, 0x07] ∧
    (∀ h s ev, (BLEPeripheral.irq h s ev).payload = s.payload) := by
  refine ⟨rfl, by decide, ?_⟩
  intro h s ev
  cases ev with
  | connect conn_handle => rfl
  | disconnect conn_handle => rfl
  | write conn_handle attr_handle v =>
      simp only [BLEPeripheral.irq]
      repeat' split
      all_goals rfl

/-- C7: a write to the notify-interval characteristic of exactly 2 bytes is
accepted: the cached interval becomes the unsigned little-endian value and
the cached byte buffer becomes the written bytes; a write of any other length
changes nothing; in both cases the advertising payload is untouched. -/
theorem C7_notify_interval_write (h : Handles) (s : BLEPeripheral) (ch : Nat)
    (v : List Nat) (hne : h.notify_freq_handle ≠ h.char_handle + 1) :
    (v.length = 2 →
      BLEPeripheral.irq h s (.write ch h.notify_freq_handle v) =
        { s with notify_frequency := fromBytesLE v, notify_freq_value := v }) ∧
    (v.length ≠ 2 →
      BLEPeripheral.irq h s (.write ch h.notify_freq_handle v) = s) ∧
    (BLEPeripheral.irq h s (.write ch h.notify_freq_handle v)).payload = s.payload ∧
    (∀ a b : Nat, fromBytesLE [a, b] = a + 256 * b) := by
  have hbase : BLEPeripheral.irq h s (.write ch h.notify_freq_handle v) =
      if v.length = 2 then
        { s with notify_frequency := fromBytesLE v, notify_freq_value := v }
      else s := by
    simp [BLEPeripheral.irq, hne]
  refine ⟨?_, ?_, ?_, ?_⟩
  · intro hlen
    rw [hbase, if_pos hlen]
  · intro hlen
    rw [hbase, if_neg hlen]
  · rw [hbase]
    split <;> rfl
  · intro a b
    show a + 256 * (b + 256 * 0) = a + 256 * b
    omega

theorem C7_notify_interval_write_witness :
    ((18 : Nat) ≠ 16 + 1) ∧
    (([0xD0, 0x07] : List Nat).length = 2) ∧
    BLEPeripheral.irq ⟨16, 18, 20⟩ (BLEPeripheral.init "RBPThermocouple")
        (.write 0 18 [0xD0, 0x07]) =
      { BLEPeripheral.init "RBPThermocouple" with
          notify_frequency := fromBytesLE [0xD0, 0x07],
          notify_freq_value := [0xD0, 0x07] } :=
  ⟨by decide, by decide,
   (C7_notify_interval_write ⟨16, 18, 20⟩ (BLEPeripheral.init "RBPThermocouple") 0
     [0xD0, 0x07] (by decide)).1 (by decide)⟩

/-- C8 counterexample: the claim says every connect event leaves
`notificationsEnabled` true; after connect(0), disconnect(0), connect(1) the
handle 1 is in the active set but the flag is false. -/
theorem C8_counterexample :
    (BLEPeripheral.irq ⟨16, 18, 20⟩
        (BLEPeripheral.irq ⟨16, 18, 20⟩
          (BLEPeripheral.irq ⟨16, 18, 20⟩ (BLEPeripheral.init "RBPThermocouple")
            (.connect 0))
          (.disconnect 0))
        (.connect 1)).connections = [1] ∧
    (BLEPeripheral.irq ⟨16, 18, 20⟩
        (BLEPeripheral.irq ⟨16, 18, 20⟩
          (BLEPeripheral.irq ⟨16, 18, 20⟩ (BLEPeripheral.init "RBPThermocouple")
            (.connect 0))
          (.disconnect 0))
        (.connect 1)).notification_enabled = false ∧
    (false ≠ true) := by
  refine ⟨by decide, by decide, by decide⟩

/-- C8 (amended): a connect event adds the handle to the active set and
leaves the notification flag unchanged (it is true only at startup or after
an enabling CCCD write); a disconnect event removes the handle and forces the
flag to false, even if it was previously true. -/
theorem C8_connection_lifecycle (h : Handles) (s : BLEPeripheral) (ch : Nat) :
    ((BLEPeripheral.irq h s (.connect ch)).connections = pySetAdd s.connections ch ∧
     ch ∈ (BLEPeripheral.irq h s (.connect ch)).connections ∧
     (BLEPeripheral.irq h s (.connect ch)).notification_enabled =
       s.notification_enabled) ∧
    ((BLEPeripheral.irq h s (.disconnect ch)).connections =
       pySetDiscard s.connections ch ∧
     ch ∉ (BLEPeripheral.irq h s (.disconnect ch)).connections ∧
     (BLEPeripheral.irq h s (.disconnect ch)).notification_enabled = false) ∧
    (BLEPeripheral.init "RBPThermocouple").notification_enabled = true := by
  refine ⟨⟨rfl, ?_, rfl⟩, ⟨rfl, ?_, rfl⟩, rfl⟩
  · show ch ∈ pySetAdd s.connections ch
    unfold pySetAdd
    split
    · assumption
    · exact List.mem_append_right _ (List.mem_singleton.2 rfl)
  · show ch ∉ pySetDiscard s.connections ch
    intro hmem
    have hp := List.of_mem_filter hmem
    simp at hp

/-- C9 counterexample: the claim says that after a faulted frame the cached
celsius still holds the value of the most recent non-faulted frame.  Starting
from a driver whose previous good read cached 25.0, a cycle whose frame has
raw code 0 and the fault bit set suppresses the notification but overwrites
the cache with 0.0, and a subsequent stale read returns 0.0, not 25.0. -/
theorem C9_counterexample :
    (loop_cycle 1000 1300 (fun i => i == 12) ⟨0, 25, 0⟩
        (BLEPeripheral.irq ⟨16, 18, 20⟩ (BLEPeripheral.init "RBPThermocouple")
          (.connect 0))).2 = [] ∧
    (loop_cycle 1000 1300 (fun i => i == 12) ⟨0, 25, 0⟩
        (BLEPeripheral.irq ⟨16, 18, 20⟩ (BLEPeripheral.init "RBPThermocouple")
          (.connect 0))).1.last_read_temp = 0 ∧
    (MAX6675.read 1400 (fun _ => false)
        (loop_cycle 1000 1300 (fun i => i == 12) ⟨0, 25, 0⟩
          (BLEPeripheral.irq ⟨16, 18, 20⟩ (BLEPeripheral.init "RBPThermocouple")
            (.connect 0))).1).2.1 = 0 ∧
    ((0 : ℚ) ≠ 25) ∧
    (⟨0, 25, 0⟩ : MAX6675).last_read_temp = 25 := by
  have hready : MAX6675.ready 1300 ((MAX6675.refresh 1000 ⟨0, 25, 0⟩).1) = true := by decide
  have hb : readBits (fun i => i == 12) = 0 := by decide
  have hread : MAX6675.read 1300 (fun i => i == 12) ((MAX6675.refresh 1000 ⟨0, 25, 0⟩).1) =
      (⟨1300, 0, 1⟩, 0, readEvents) := by
    simp [MAX6675.read, hready, hb]
  have hcycle : loop_cycle 1000 1300 (fun i => i == 12) ⟨0, 25, 0⟩
      (BLEPeripheral.irq ⟨16, 18, 20⟩ (BLEPeripheral.init "RBPThermocouple")
        (.connect 0)) = (⟨1300, 0, 1⟩, []) := by
    simp [loop_cycle, hread, MAX6675.errorBit]
  rw [hcycle]
  refine ⟨rfl, rfl, ?_, by norm_num, rfl⟩
  rw [show MAX6675.read 1400 (fun _ => false) (⟨1300, 0, 1⟩ : MAX6675) =
        ((⟨1300, 0, 1⟩ : MAX6675), 0, []) from by
      simp [MAX6675.read, show MAX6675.ready 1400 (⟨1300, 0, 1⟩ : MAX6675) = false from by decide]]

/-- C9 (amended): a completed acquisition cycle whose frame has the fault bit
set produces no notification, and the celsius derived from the faulted frame
itself replaces the cache: subsequent stale reads return the faulted frame's
celsius, not the value of the most recent non-faulted frame. -/
theorem C9_fault_suppresses_notification (tRefresh tRead : Nat) (so : Nat → Bool)
    (s : MAX6675) (b : BLEPeripheral)
    (hready : MAX6675.ready tRead ((MAX6675.refresh tRefresh s).1) = true)
    (hfault : so 12 = true) :
    (loop_cycle tRefresh tRead so s b).2 = [] ∧
    (loop_cycle tRefresh tRead so s b).1.last_read_temp =
      (readBits so : ℚ) * (1 / 4) ∧
    (∀ t so2, MAX6675.ready t (loop_cycle tRefresh tRead so s b).1 = false →
      (MAX6675.read t so2 (loop_cycle tRefresh tRead so s b).1).2.1 =
        (readBits so : ℚ) * (1 / 4)) := by
  have hread : MAX6675.read tRead so ((MAX6675.refresh tRefresh s).1) =
      ({ last_measurement_start := tRead,
         last_read_temp := (readBits so : ℚ) * (1 / 4), error := 1 },
       (readBits so : ℚ) * (1 / 4), readEvents) := by
    simp [MAX6675.read, hready, hfault]
  have hcycle : loop_cycle tRefresh tRead so s b =
      ({ last_measurement_start := tRead,
         last_read_temp := (readBits so : ℚ) * (1 / 4), error := 1 }, []) := by
    simp [loop_cycle, hread, MAX6675.errorBit]
  rw [hcycle]
  refine ⟨rfl, rfl, ?_⟩
  intro t so2 hnr
  have hnr2 : MAX6675.ready t
      ({ last_measurement_start := tRead,
         last_read_temp := (readBits so : ℚ) * (1 / 4), error := 1 } : MAX6675) = false := hnr
  simp only [MAX6675.read]
  rw [hnr2]
  rfl

theorem C9_fault_suppresses_notification_witness :
    MAX6675.ready 300 ((MAX6675.refresh 0 MAX6675.init).1) = true ∧
    ((fun i : Nat => i == 12) 12 = true) ∧
    (loop_cycle 0 300 (fun i : Nat => i == 12) MAX6675.init
        (BLEPeripheral.init "RBPThermocouple")).2 = [] :=
  ⟨by decide, by decide,
   (C9_fault_suppresses_notification 0 300 (fun i : Nat => i == 12) MAX6675.init
     (BLEPeripheral.init "RBPThermocouple") (by decide) (by decide)).1⟩
